import Mathlib

/-!
# Verification of the weather-rs command-line weather viewer

A shallow embedding, in Lean 4, of the cache-validity, time-window,
rendering and argument-parsing logic of `src/main.rs` and
`src/structs.rs`, together with theorems settling the specification's
claims about that logic.

Modelling conventions:
* `f32` values are idealized as rationals (`ℚ`); where NaN behaviour
  matters (coordinate validation) we use `F32`, a finite-or-NaN model
  whose comparison operators return `false` when either side is NaN,
  exactly as IEEE `f32` comparisons do.
* Machine integers are `Nat`/`Int`; `u32` addition that can wrap is
  written with an explicit `% 2^32` (release-mode wrapping semantics).
* Fallible code (slice indexing, `unwrap`, `assert!`) is embedded in
  the `Option` monad: `none` models a panic.
* Rust's saturating `usize` subtraction coincides with `Nat`
  subtraction, which is used directly.
-/

namespace Weather

/-- Finite-or-NaN model of an `f32` used where NaN behaviour is
observable (infinities are not needed by any claim and are omitted). -/
inductive F32 where
  | num : ℚ → F32
  | nan : F32
  deriving DecidableEq

/-- IEEE `<` on `f32`: false whenever either operand is NaN. -/
def F32.flt : F32 → F32 → Bool
  | F32.num a, F32.num b => decide (a < b)
  | _, _ => false

/-- IEEE `>` on `f32`: false whenever either operand is NaN. -/
def F32.fgt : F32 → F32 → Bool
  | F32.num a, F32.num b => decide (b < a)
  | _, _ => false

/-- `f32` subtraction with a rational second operand (NaN propagates). -/
def F32.fsubQ : F32 → ℚ → F32
  | F32.num a, q => F32.num (a - q)
  | F32.nan, _ => F32.nan

/-- `f32::abs` (NaN propagates). -/
def F32.fabs : F32 → F32
  | F32.num a => F32.num |a|
  | F32.nan => F32.nan

/-- IEEE `>` against a rational threshold: false when the left side is NaN. -/
def F32.fgtQ : F32 → ℚ → Bool
  | F32.num a, q => decide (q < a)
  | F32.nan, _ => false

/-- `enum MyError` from `src/main.rs`. -/
inductive MyError where
  | InvalidLatitude : F32 → MyError
  | InvalidLongitude : F32 → MyError
  deriving DecidableEq

/-- `enum Mode` from `src/main.rs`. -/
inductive Mode where
  | Current
  | Day
  | Week
  deriving DecidableEq

/-- `enum EmojiMode` from `src/main.rs`. -/
inductive EmojiMode where
  | NerdFont
  | Original
  | Technical
  deriving DecidableEq

/-- `enum TempScale` from `src/main.rs`. -/
inductive TempScale where
  | Fahrenheit
  | Celsius
  deriving DecidableEq

/-- `struct LatLon` from `src/main.rs` (fields are `f32`). -/
structure LatLon where
  lat : F32
  lon : F32
  deriving DecidableEq

/-- `LatLon::new` from `src/main.rs`: the match-with-guards chain is
embedded as the equivalent first-match if-chain over IEEE comparisons. -/
def LatLon.new (lat lon : F32) : Except MyError LatLon :=
  if lat.flt (F32.num (-90)) || lat.fgt (F32.num 90) then
    Except.error (MyError.InvalidLatitude lat)
  else if lon.flt (F32.num (-180)) || lon.fgt (F32.num 180) then
    Except.error (MyError.InvalidLongitude lon)
  else
    Except.ok { lat := lat, lon := lon }

/-- `struct Settings` from `src/main.rs`. -/
structure Settings where
  mode : Mode
  quiet : Bool
  no_color : Bool
  cache_override : Bool
  emoji : EmojiMode
  temp_scale : TempScale
  latlon : Option LatLon
  deriving DecidableEq

/-- `struct Rgb` from `src/main.rs` (`u8` channels as `Nat`). -/
structure Rgb where
  r : Nat
  g : Nat
  b : Nat
  deriving DecidableEq

/-- `struct CurrentData` from `src/structs.rs` (`time: u32` as `Nat`). -/
structure CurrentData where
  time : Nat
  interval : Int
  temperature_2m : ℚ
  relative_humidity_2m : Int
  weather_code : Nat
  deriving DecidableEq

/-- `struct HourlyUnits` from `src/structs.rs`. -/
structure HourlyUnits where
  time : String
  relative_humidity_2m : String
  precipitation_probability : String
  dew_point_2m : String
  wind_speed_10m : String
  wind_direction_10m : String
  temperature_2m : String
  weather_code : String
  deriving DecidableEq

/-- `struct FifteenMinutely` from `src/structs.rs`: the parallel
15-minutely series (`u32` timestamps as `Nat`, `f32` values as `ℚ`,
`i16` wind directions as `Int`, `u8` weather codes as `Nat`). -/
structure FifteenMinutely where
  time : List Nat
  temperature_2m : List ℚ
  relative_humidity_2m : List ℚ
  dew_point_2m : List ℚ
  precipitation_probability : List ℚ
  weather_code : List Nat
  wind_speed_10m : List ℚ
  wind_direction_10m : List Int
  deriving DecidableEq

/-- `struct DailyData` from `src/structs.rs`.  The field `uv_index_max`
is referenced by `weekly_weather` in `src/main.rs` but absent from
`src/structs.rs`; it is modelled from the spec: the daily series
includes a UV-index-max series parallel to the others. -/
structure DailyData where
  time : List Nat
  temperature_2m_max : List ℚ
  temperature_2m_min : List ℚ
  sunrise : List Nat
  sunset : List Nat
  precipitation_probability_max : List Int
  wind_speed_10m_max : List ℚ
  weather_code : List Nat
  uv_index_max : List ℚ
  deriving DecidableEq

/-- `struct MeteoApiResponse` from `src/structs.rs`, restricted to the
fields the verified functions read (`generationtime_ms`, the hourly
series and the unit hash-maps are never consulted by them). -/
structure MeteoApiResponse where
  latitude : ℚ
  longitude : ℚ
  utc_offset_seconds : Int
  timezone : String
  current : CurrentData
  hourly_units : HourlyUnits
  minutely_15 : FifteenMinutely
  daily : DailyData
  deriving DecidableEq

/-- `is_cache_valid` from `src/main.rs`.  The file read and JSON parse
are modelled by the `Option MeteoApiResponse` argument: `none` stands
for a missing, unreadable or unparsable cache file (both return
`false` in the source).  `sysTime` is the `SYSTEM_TIME` global
(`u64`), and the age test is the `i64` computation
`(SYSTEM_TIME as i64 - json.current.time as i64).unsigned_abs() >= 1800`. -/
def is_cache_valid (s : Settings) (sysTime : Nat) (cache : Option MeteoApiResponse) :
    Bool :=
  if s.cache_override then false
  else
    match cache with
    | none => false
    | some json =>
      if 1800 ≤ ((sysTime : Int) - (json.current.time : Int)).natAbs then false
      else
        let unitOk : Bool :=
          match s.temp_scale with
          | TempScale.Fahrenheit => json.hourly_units.temperature_2m == "°F"
          | TempScale.Celsius => json.hourly_units.temperature_2m == "°C"
        if !unitOk then false
        else
          match s.latlon with
          | some ll =>
            if (ll.lat.fsubQ json.latitude).fabs.fgtQ (1 / 10) then false
            else if (ll.lon.fsubQ json.longitude).fabs.fgtQ (1 / 10) then false
            else true
          | none => true

/-- `START_DISPLAY` from `src/main.rs`: prev hours shown in `Mode::Day`,
times 4 because the data is 15-minutely. -/
def START_DISPLAY : Nat := 6 * 4

/-- `END_DISPLAY` from `src/main.rs`: future hours shown, times 4. -/
def END_DISPLAY : Nat := 24 * 4

/-- `lerp` from `src/main.rs`: linearly interpolates `a` between `b`
and `c` to `d` and `e`.  Over `ℚ`, division by zero yields `0` where
`f32` would give an infinity or NaN; no claim exercises `b = c`. -/
def lerp (a b c d e : ℚ) : ℚ :=
  (a - b) * (e - d) / (c - b) + d

/-- Rust `f32::trunc`: rounds toward zero. -/
def rustTrunc (q : ℚ) : ℚ :=
  if q < 0 then (⌈q⌉ : ℤ) else (⌊q⌋ : ℤ)

/-- Rust `as usize` on an `f32`: saturating cast — NaN and negative
values go to `0`, otherwise the value is truncated (saturation at
`usize::MAX` is irrelevant at the magnitudes any claim touches). -/
def rustCastUsize (q : ℚ) : Nat :=
  if q ≤ 0 then 0 else (⌊q⌋).toNat

/-- Rust `format!("{:w$}", s)` on a string: pads with spaces on the
right up to a minimum of `w` characters and never truncates. -/
def padTo (s : String) (w : Nat) : String :=
  if s.length < w then s ++ String.mk (List.replicate (w - s.length) ' ') else s

/-- The `conversion` match of `mk_bar`: one of eight partial-block
glyphs chosen by the fractional remainder `y`, in the source's arm
order (half-open eighths ranges, `"*"` as the unreachable fallback). -/
def eighthGlyph (y : ℚ) : String :=
  if 0 ≤ y ∧ y < 1 / 8 then " "
  else if 1 / 8 ≤ y ∧ y < 2 / 8 then "▏"
  else if 2 / 8 ≤ y ∧ y < 3 / 8 then "▎"
  else if 3 / 8 ≤ y ∧ y < 4 / 8 then "▍"
  else if 4 / 8 ≤ y ∧ y < 5 / 8 then "▌"
  else if 5 / 8 ≤ y ∧ y < 6 / 8 then "▋"
  else if 6 / 8 ≤ y ∧ y < 7 / 8 then "▊"
  else if 7 / 8 ≤ y ∧ y < 1 then "▉"
  else "*"

/-- `mk_bar` from `src/main.rs`: full block glyphs for the integer part
of the lerped value, one partial-block glyph (eighths) for the
fractional part, then the width-`bar_max` pad. -/
def mk_bar (val low high bar_low : ℚ) (bar_max : Nat) : String :=
  let x := lerp val low high bar_low ((bar_max : ℚ) - 1)
  let blocks := String.mk (List.replicate (rustCastUsize x) '█')
  padTo (blocks ++ eighthGlyph (x - rustTrunc x)) bar_max

/-- The loop body accumulator of `get_time_index` from `src/main.rs`:
`r` is the running `result`, `i` the index of the head of the
remaining list. -/
def get_time_index_go (sys : Nat) (r i : Nat) : List Nat → Nat
  | [] => r
  | t :: ts =>
    get_time_index_go sys
      (if 0 ≤ (sys : Int) - (t : Int) ∧ (sys : Int) - (t : Int) ≤ 900 then i else r)
      (i + 1) ts

/-- `get_time_index` from `src/main.rs`: scans the series, remembering
the last index within 15 minutes (900 s) at-or-before `sys`; the
result starts at `START_DISPLAY`. -/
def get_time_index (sys : Nat) (time_data : List Nat) : Nat :=
  get_time_index_go sys START_DISPLAY 0 time_data

/-- The window bounds computed by `hourly_weather` in `src/main.rs`:
`start = now.saturating_sub(START_DISPLAY)` (`Nat` subtraction) and
`end = (now + END_DISPLAY).min(len)`. -/
def select_window (len now : Nat) : Nat × Nat :=
  (now - START_DISPLAY, min (now + END_DISPLAY) len)

/-- Rust slice indexing `&l[s..e]`: panics (here `none`) unless
`s ≤ e ≤ l.length`. -/
def rustSlice {α : Type} (l : List α) (s e : Nat) : Option (List α) :=
  if s ≤ e ∧ e ≤ l.length then some ((l.drop s).take (e - s)) else none

/-- `enum MoonPhase` from `src/main.rs`. -/
inductive MoonPhase where
  | Full
  | WanGib
  | LastQ
  | WanCres
  | New
  | WaxCres
  | FirstQ
  | WaxGib
  | Invalid : Nat → MoonPhase
  deriving DecidableEq

/-- The synodic period constant of `get_moon_phase` (seconds). -/
def moonPeriod : Nat := 2551442

/-- `inc` in `get_moon_phase`: `2551442 / 8`. -/
def moonInc : Nat := 2551442 / 8

/-- `remainder` in `get_moon_phase`: `2551442 % 8`. -/
def moonRem : Nat := 2551442 % 8

/-- The bucket match of `get_moon_phase` from `src/main.rs`: the
ordered match arms on the `lunar` remainder, with both bounds of each
inclusive range kept and Rust's first-match semantics as an if-chain. -/
def phase_of_lunar (x : Nat) : MoonPhase :=
  if 0 ≤ x ∧ x ≤ moonInc then MoonPhase.LastQ
  else if moonInc ≤ x ∧ x ≤ moonInc * 2 then MoonPhase.WanCres
  else if moonInc * 2 ≤ x ∧ x ≤ moonInc * 3 then MoonPhase.New
  else if moonInc * 3 ≤ x ∧ x ≤ moonInc * 4 then MoonPhase.WaxCres
  else if moonInc * 4 ≤ x ∧ x ≤ moonInc * 5 then MoonPhase.FirstQ
  else if moonInc * 5 ≤ x ∧ x ≤ moonInc * 6 then MoonPhase.WaxGib
  else if moonInc * 6 ≤ x ∧ x ≤ moonInc * 7 then MoonPhase.Full
  else if moonInc * 7 ≤ x ∧ x ≤ moonInc * 8 + moonRem then MoonPhase.WanGib
  else MoonPhase.Invalid x

/-- `get_moon_phase` from `src/main.rs`: `(time + offset) % period`
with `offset = 86400 - 3600`, the `u32` addition written with its
release-mode wrap `% 2^32` made explicit. -/
def get_moon_phase (time : Nat) : MoonPhase :=
  let offset := 86400 - 3600
  let lunar := ((time % 4294967296 + offset) % 4294967296) % moonPeriod
  phase_of_lunar lunar

/-- Colors from `src/main.rs` used by the decoded weather labels. -/
def L_GRAY : Rgb := { r := 180, g := 180, b := 180 }

def YELLOW : Rgb := { r := 255, g := 233, b := 102 }

def ALT_YELLOW : Rgb := { r := 235, g := 213, b := 122 }

def CLEAR_BLUE : Rgb := { r := 92, g := 119, b := 242 }

def MID_BLUE : Rgb := { r := 68, g := 99, b := 240 }

def DEEP_BLUE : Rgb := { r := 45, g := 80, b := 238 }

/-- The decade-bucketed fallback arms shared by every `wmo_decode`
table (`0..=9` through `90..=99` and the final wildcard); `pad`
reproduces the per-table trailing-space counts. -/
def wmoDecadeLabel (pad : String) (wmo : Nat) : String × Rgb :=
  if wmo ≤ 9 then ("N/A 0-9  " ++ pad, CLEAR_BLUE)
  else if wmo ≤ 19 then ("N/A 10-19" ++ pad, CLEAR_BLUE)
  else if wmo ≤ 29 then ("N/A 20-29" ++ pad, CLEAR_BLUE)
  else if wmo ≤ 39 then ("N/A 30-39" ++ pad, CLEAR_BLUE)
  else if wmo ≤ 49 then ("N/A 40-49" ++ pad, CLEAR_BLUE)
  else if wmo ≤ 59 then ("N/A 50-59" ++ pad, CLEAR_BLUE)
  else if wmo ≤ 69 then ("N/A 60-69" ++ pad, CLEAR_BLUE)
  else if wmo ≤ 79 then ("N/A 70-79" ++ pad, CLEAR_BLUE)
  else if wmo ≤ 89 then ("N/A 80-89" ++ pad, CLEAR_BLUE)
  else if wmo ≤ 99 then ("N/A 90-99" ++ pad, CLEAR_BLUE)
  else ("N/A      " ++ pad, CLEAR_BLUE)

/-- The `(label, color)` table lookup of `wmo_decode` from
`src/main.rs`, indexed by emoji mode and day/night exactly as the
source's outer match; the handled codes precede the decade fallbacks,
mirroring Rust's first-match arm order. -/
def wmo_table (emoji : EmojiMode) (daynight : Bool) (wmo : Nat) : String × Rgb :=
  match emoji, daynight with
  | EmojiMode.NerdFont, _ =>
    match wmo with
    | 0 => (" ~Clear       ", CLEAR_BLUE)
    | 1 => (" <Clear       ", CLEAR_BLUE)
    | 2 => (" ~Cloudy      ", L_GRAY)
    | 3 => (" >Cloudy      ", L_GRAY)
    | 44 => (" ~Foggy       ", L_GRAY)
    | 45 => (" ~Foggy       ", L_GRAY)
    | 48 => (" Fog+Rime     ", L_GRAY)
    | 51 => (" Drizzling-   ", CLEAR_BLUE)
    | 53 => (" Drizzling~   ", MID_BLUE)
    | 55 => (" Drizzling+   ", DEEP_BLUE)
    | 61 => (" Raining-     ", CLEAR_BLUE)
    | 63 => (" Raining~     ", MID_BLUE)
    | 65 => (" Raining+     ", DEEP_BLUE)
    | 71 => (" Snowing-     ", CLEAR_BLUE)
    | 73 => (" Snowing~     ", CLEAR_BLUE)
    | 75 => (" Snowing+     ", CLEAR_BLUE)
    | 77 => (" Snow Grains  ", CLEAR_BLUE)
    | 80 => (" Showers-     ", CLEAR_BLUE)
    | 81 => (" Showers~     ", MID_BLUE)
    | 82 => (" Showers+     ", DEEP_BLUE)
    | 85 => (" Snow Showers-", CLEAR_BLUE)
    | 86 => (" Snow Showers+", CLEAR_BLUE)
    | 95 => (" Thunderstorm~", YELLOW)
    | n => wmoDecadeLabel "      " n
  | EmojiMode.Original, false =>
    match wmo with
    | 0 => ("🌒 Clear         ", CLEAR_BLUE)
    | 1 => ("🌃 Clear~        ", CLEAR_BLUE)
    | 2 => ("☁️ Cloudy~        ", L_GRAY)
    | 3 => ("☁️ Cloudy         ", L_GRAY)
    | 44 => ("🌫️ Foggy         ", L_GRAY)
    | 45 => ("🌫️ Foggy         ", L_GRAY)
    | 48 => ("🌫️ Foggy         ", L_GRAY)
    | 51 => ("🌧️ Drizzle~      ", CLEAR_BLUE)
    | 53 => ("🌧️ Drizzle       ", MID_BLUE)
    | 55 => ("🌧️ Drizzle       ", DEEP_BLUE)
    | 61 => ("🌧️ Rainy~        ", CLEAR_BLUE)
    | 63 => ("🌧️ Rainy         ", MID_BLUE)
    | 65 => ("🌧️ Rain+         ", DEEP_BLUE)
    | 71 => ("❄️ Snowy~         ", CLEAR_BLUE)
    | 73 => ("❄️ Snowy          ", CLEAR_BLUE)
    | 75 => ("❄️ Snowy          ", CLEAR_BLUE)
    | 77 => ("🌨️ Wintry        ", CLEAR_BLUE)
    | 80 => ("🌧️ Rainy~        ", CLEAR_BLUE)
    | 81 => ("🌧️ Rainy         ", MID_BLUE)
    | 82 => ("🌧️ Rainy         ", DEEP_BLUE)
    | 85 => ("❄️ Snowy~         ", CLEAR_BLUE)
    | 86 => ("❄️ Snowy          ", CLEAR_BLUE)
    | 95 => ("⛈️ Thunderstorms  ", YELLOW)
    | n => wmoDecadeLabel "        " n
  | EmojiMode.Original, true =>
    match wmo with
    | 0 => ("☀️ Clear          ", ALT_YELLOW)
    | 1 => ("🌇 Clear~        ", ALT_YELLOW)
    | 2 => ("⛅ Cloudy~       ", L_GRAY)
    | 3 => ("☁️ Cloudy         ", L_GRAY)
    | 44 => ("🌫️ Foggy         ", L_GRAY)
    | 45 => ("🌫️ Foggy         ", L_GRAY)
    | 48 => ("🌫️ Foggy         ", L_GRAY)
    | 51 => ("🌧️ Drizzle~      ", CLEAR_BLUE)
    | 53 => ("🌧️ Drizzle       ", MID_BLUE)
    | 55 => ("🌧️ Drizzle       ", DEEP_BLUE)
    | 61 => ("🌧️ Rainy~        ", CLEAR_BLUE)
    | 63 => ("🌧️ Rainy         ", MID_BLUE)
    | 65 => ("🌧️ Rain+         ", DEEP_BLUE)
    | 71 => ("❄️ Snowy~         ", CLEAR_BLUE)
    | 73 => ("❄️ Snowy          ", CLEAR_BLUE)
    | 75 => ("❄️ Snowy          ", CLEAR_BLUE)
    | 77 => ("🌨️ Wintry        ", CLEAR_BLUE)
    | 80 => ("🌧️ Rainy~        ", CLEAR_BLUE)
    | 81 => ("🌧️ Rainy         ", MID_BLUE)
    | 82 => ("🌧️ Rainy         ", DEEP_BLUE)
    | 85 => ("❄️ Snowy~         ", CLEAR_BLUE)
    | 86 => ("❄️ Snowy          ", CLEAR_BLUE)
    | 95 => ("⛈️ Thunderstorms  ", YELLOW)
    | n => wmoDecadeLabel "        " n
  | EmojiMode.Technical, true =>
    match wmo with
    | 0 => ("☀️ Clear         ", ALT_YELLOW)
    | 1 => ("🌤️ Clear        ", ALT_YELLOW)
    | 2 => ("🏙️ Cloudy       ", L_GRAY)
    | 3 => ("☁️ Cloudy         ", L_GRAY)
    | 44 => ("🌫️ Foggy         ", L_GRAY)
    | 45 => ("🌫️ Foggy         ", L_GRAY)
    | 48 => ("🌫️ Foggy         ", L_GRAY)
    | 51 => ("🌦️ Drizzle~      ", CLEAR_BLUE)
    | 53 => ("🌧️ Drizzle       ", MID_BLUE)
    | 55 => ("🌧️ Drizzle+       ", DEEP_BLUE)
    | 61 => ("🌦️ Rain~        ", CLEAR_BLUE)
    | 63 => ("🌧️ Rain         ", MID_BLUE)
    | 65 => ("🌧️ Rain+         ", DEEP_BLUE)
    | 71 => ("❄️ Snow~         ", CLEAR_BLUE)
    | 73 => ("❄️ Snow          ", CLEAR_BLUE)
    | 75 => ("❄️ Snow+          ", CLEAR_BLUE)
    | 77 => ("🌫️ Wintry        ", CLEAR_BLUE)
    | 80 => ("🌦️ Rainy~        ", CLEAR_BLUE)
    | 81 => ("🌧️ Rainy         ", MID_BLUE)
    | 82 => ("🌧️ Rainy+         ", DEEP_BLUE)
    | 85 => ("❄️ Snowy~         ", CLEAR_BLUE)
    | 86 => ("❄️ Snowy          ", CLEAR_BLUE)
    | 95 => ("⛈️ Thunderstorms  ", YELLOW)
    | n => wmoDecadeLabel "        " n
  | EmojiMode.Technical, false =>
    match wmo with
    | 0 => ("%m Clear         ", CLEAR_BLUE)
    | 1 => ("%m Clear        ", CLEAR_BLUE)
    | 2 => ("🌃 Cloudy       ", L_GRAY)
    | 3 => ("☁️ Cloudy         ", L_GRAY)
    | 44 => ("🌫️ Foggy         ", L_GRAY)
    | 45 => ("🌫️ Foggy         ", L_GRAY)
    | 48 => ("🌫️ Foggy         ", L_GRAY)
    | 51 => ("🌧️ Drizzle~      ", CLEAR_BLUE)
    | 53 => ("🌧️ Drizzle       ", MID_BLUE)
    | 55 => ("🌧️ Drizzle+       ", DEEP_BLUE)
    | 61 => ("🌧️ Rain~        ", CLEAR_BLUE)
    | 63 => ("🌧️ Rain         ", MID_BLUE)
    | 65 => ("🌧️ Rain+         ", DEEP_BLUE)
    | 71 => ("❄️ Snow~         ", CLEAR_BLUE)
    | 73 => ("❄️ Snow          ", CLEAR_BLUE)
    | 75 => ("❄️ Snow+          ", CLEAR_BLUE)
    | 77 => ("🌫️ Wintry        ", CLEAR_BLUE)
    | 80 => ("🌧️ Rainy~        ", CLEAR_BLUE)
    | 81 => ("🌧️ Rainy         ", MID_BLUE)
    | 82 => ("🌧️ Rainy+         ", DEEP_BLUE)
    | 85 => ("❄️ Snowy~         ", CLEAR_BLUE)
    | 86 => ("❄️ Snowy          ", CLEAR_BLUE)
    | 95 => ("⛈️ Thunderstorms  ", YELLOW)
    | n => wmoDecadeLabel "        " n

/-- The moon-glyph substitution at the end of `wmo_decode`: replaces a
`%m` placeholder according to the moon phase. -/
def moonSubst (s : String) (moon : MoonPhase) : String :=
  match moon with
  | MoonPhase.Full => s.replace "%m" "🌕"
  | MoonPhase.WanGib => s.replace "%m" "🌖"
  | MoonPhase.LastQ => s.replace "%m" "🌗"
  | MoonPhase.WanCres => s.replace "%m" "🌘"
  | MoonPhase.New => s.replace "%m" "🌑"
  | MoonPhase.WaxCres => s.replace "%m" "🌒"
  | MoonPhase.FirstQ => s.replace "%m" "🌓"
  | MoonPhase.WaxGib => s.replace "%m" "🌔"
  | MoonPhase.Invalid n => s.replace "%m" (toString n)

/-- `BAR_MAX` as computed by `define_dimensions` from the default
80×32 terminal (`(w - min_width_without_bars - bar_count) / 2`);
terminal detection is an environment interaction outside the claims,
which concern array lengths only. -/
def BAR_MAX : Nat := (80 - (2 + 5 + 6 + 5 + 5 + 6 + 10) - 2) / 2

/-- `HOURLY_RES` at the default 80×32 terminal: the height 32 exceeds
`(START_DISPLAY + END_DISPLAY) / 4 = 30`, so the default stride 4 is
kept by `define_dimensions`. -/
def HOURLY_RES : Nat := 4

/-- Rust `(0..n).step_by(step)`: the indices `0, step, 2*step, …`
below `n` — `⌈n/step⌉` of them. -/
def stepIndices (n step : Nat) : List Nat :=
  (List.range ((n + step - 1) / step)).map (fun j => j * step)

/-- Rust `iter().min_by(partial_cmp)` / `reduce(f32::min)` followed by
`unwrap`: `none` on the empty list models the panic.  Comparator
totality over `ℚ` idealizes the `partial_cmp(..).unwrap()` of the
source, which panics only on NaN. -/
def listMin : List ℚ → Option ℚ
  | [] => none
  | x :: xs => some (xs.foldl min x)

/-- Rust `iter().max_by(partial_cmp)` / `reduce(f32::max)` followed by
`unwrap`, as for `listMin`. -/
def listMax : List ℚ → Option ℚ
  | [] => none
  | x :: xs => some (xs.foldl max x)

/-- A for-loop that can panic, accumulating one value per iteration:
`none` as soon as any iteration panics. -/
def mapOpt {α β : Type} (f : α → Option β) : List α → Option (List β)
  | [] => some []
  | a :: l => (f a).bind fun b => (mapOpt f l).bind fun bs => some (b :: bs)

/-- Rust `slice::chunks(n)` for `n > 0`: `⌈len/n⌉` consecutive chunks,
the last possibly short, none empty. -/
def chunksOf {α : Type} (n : Nat) (l : List α) : List (List α) :=
  (List.range ((l.length + n - 1) / n)).map (fun i => (l.drop (i * n)).take n)

/-- One rendered row of `hourly_weather`: the values read from the
sliced series plus the two bars.  The colorization and fixed-width
text formatting of the source are total string operations and cannot
panic, so they carry no verification content and are not replayed. -/
structure HourRow where
  time : Nat
  temp : ℚ
  temp_bar : String
  humid : ℚ
  wet_bulb : ℚ
  precip : ℚ
  precip_bar : String
  wind_spd : ℚ
  wind_di : Int
  wmo : Nat
  daynight : Bool
  deriving DecidableEq

/-- The row loop of `hourly_weather` (`for i in (0..temp.len())
.step_by(HOURLY_RES)`), one `HourRow` per iteration; `none` models a
panic on any of the per-row slice accesses. -/
def hourly_rows (time : List Nat) (temp humid precip wind_spd : List ℚ)
    (wind_di : List Int) (wmo : List Nat) (lh : ℚ × ℚ)
    (wb : ℚ → ℚ → ℚ) (sunset sunrise : Nat) : Option (List HourRow) :=
  mapOpt
    (fun i => do
      let t ← time.get? i
      let tv ← temp.get? i
      let hv ← humid.get? i
      let pv ← precip.get? i
      let wsv ← wind_spd.get? i
      let wdv ← wind_di.get? i
      let wc ← wmo.get? i
      some
        { time := t, temp := tv
          temp_bar := mk_bar tv lh.1 lh.2 1 BAR_MAX
          humid := hv, wet_bulb := wb tv hv
          precip := pv, precip_bar := mk_bar pv 0 100 0 BAR_MAX
          wind_spd := wsv, wind_di := wdv, wmo := wc
          daynight := decide (t < sunset) && decide (sunrise < t) })
    (stepIndices temp.length HOURLY_RES)

/-- The high/low bar-range adjustment of `hourly_weather`: a margin of
`3.5` on each side, then widening to a minimum gap of `30`. -/
def barRange (low0 high0 : ℚ) : ℚ × ℚ :=
  let low1 := low0 - 7 / 2
  let high1 := high0 + 7 / 2
  if high1 - low1 < 30 then
    (low1 - (30 - (high1 - low1)) / 2, high1 + (30 - (high1 - low1)) / 2)
  else (low1, high1)

/-- `hourly_weather` from `src/main.rs` in the `Option` monad: `none`
models a panic (out-of-range daily index, out-of-bounds slice, or
`unwrap` of an empty min/max).  `wb` abstracts `compute_wet_bulb`,
whose transcendental `f32` arithmetic cannot affect control flow;
`sysTime` is the `SYSTEM_TIME` global consulted via `get_time_index`. -/
def hourly_weather (wb : ℚ → ℚ → ℚ) (sysTime : Nat) (md : MeteoApiResponse) :
    Option (List HourRow) := do
  let sunset ← md.daily.sunset.get? 2
  let sunrise ← md.daily.sunrise.get? 2
  let ci := get_time_index sysTime md.minutely_15.time
  let se := select_window md.minutely_15.time.length ci
  let time ← rustSlice md.minutely_15.time se.1 se.2
  let temp ← rustSlice md.minutely_15.temperature_2m se.1 se.2
  let humid ← rustSlice md.minutely_15.relative_humidity_2m se.1 se.2
  let precip ← rustSlice md.minutely_15.precipitation_probability se.1 se.2
  let wind_spd ← rustSlice md.minutely_15.wind_speed_10m se.1 se.2
  let wind_di ← rustSlice md.minutely_15.wind_direction_10m se.1 se.2
  let wmo ← rustSlice md.minutely_15.weather_code se.1 se.2
  let low0 ← listMin temp
  let high0 ← listMax temp
  hourly_rows time temp humid precip wind_spd wind_di wmo (barRange low0 high0)
    wb sunset sunrise

/-- `weekly_weather` from `src/main.rs` in the `Option` monad: `none`
models a panic — a failed `assert!(y.len() == CHUNK_LEN)`, an
out-of-range `di[i]` (the display vector has
`PAST_DAYS + FORECAST_DAYS = 16` entries), an `unwrap` of an empty
`reduce`, or an out-of-bounds parallel-series index.  As in
`hourly_weather`, `wb` abstracts `compute_wet_bulb` and the pure text
formatting (including `timestamp_to_date_components`, total for any
mean of `u32` timestamps) is not replayed. -/
def NUM_DI : Nat := 16

/-- The first `weekly_weather` loop: date headers over the 96-sample
chunks of the time series, with `assert!(y.len() == CHUNK_LEN)` and
the `di[i]` bound. -/
def weeklyTimePass (time : List Nat) : Option (List Unit) :=
  mapOpt
    (fun iy : Nat × List Nat =>
      if iy.2.length = 96 ∧ iy.1 < NUM_DI then some () else none)
    (chunksOf 96 time).enum

/-- A min/max/mean chunk loop of `weekly_weather` over a `ℚ` series:
the `assert!(y.len() == CHUNK_LEN)` (absent from the temperature loop,
hence the flag), the `di[i]` bound, and the two `reduce(..).unwrap()`
calls. -/
def weeklyStatPass (assertLen : Bool) (series : List ℚ) : Option (List (ℚ × ℚ × ℚ)) :=
  mapOpt
    (fun iy : Nat × List ℚ => do
      if (assertLen → iy.2.length = 96) ∧ iy.1 < NUM_DI then pure () else none
      let mn ← listMin iy.2
      let mx ← listMax iy.2
      pure (mn, mx, iy.2.foldl (· + ·) 0 / (iy.2.length : ℚ)))
    (chunksOf 96 series).enum

/-- The `wbs` vector of `weekly_weather`: wet bulb per sample, indexing
`temperature_2m[i]` for every `i` below the humidity length. -/
def weeklyWbs (wb : ℚ → ℚ → ℚ) (temp humid : List ℚ) : Option (List ℚ) :=
  mapOpt
    (fun i => do
      let tv ← temp.get? i
      let hv ← humid.get? i
      pure (wb tv hv))
    (List.range humid.length)

/-- The two daily loops of `weekly_weather` (UV indexes and daily
weather codes): the `di[i]` bound and the `daily.time[i]` access. -/
def weeklyDailyPass (uv : List ℚ) (wc : List Nat) (dtime : List Nat) :
    Option (List MoonPhase) := do
  let _ ← mapOpt
    (fun iu : Nat × ℚ => if iu.1 < NUM_DI then some () else none) uv.enum
  mapOpt
    (fun iw : Nat × Nat => do
      if iw.1 < NUM_DI then pure () else none
      let t ← dtime.get? iw.1
      pure (get_moon_phase t))
    wc.enum

def weekly_weather (wb : ℚ → ℚ → ℚ) (md : MeteoApiResponse) : Option Unit := do
  let _ ← weeklyTimePass md.minutely_15.time
  let gl_min ← listMin md.minutely_15.temperature_2m
  let gl_max ← listMax md.minutely_15.temperature_2m
  let tstats ← weeklyStatPass false md.minutely_15.temperature_2m
  let _ := tstats.map (fun s => mk_bar s.2.2 gl_min gl_max 1 (BAR_MAX - 4))
  let _ ← weeklyStatPass true md.minutely_15.relative_humidity_2m
  let wbs ← weeklyWbs wb md.minutely_15.temperature_2m md.minutely_15.relative_humidity_2m
  let _ ← weeklyStatPass true wbs
  let _ ← weeklyStatPass true md.minutely_15.wind_speed_10m
  let _ ← weeklyDailyPass md.daily.uv_index_max md.daily.weather_code md.daily.time
  pure ()

/-- The `Settings` initializer of the `SETTINGS` lazy static before any
argument is processed. -/
def defaultSettings : Settings :=
  { mode := Mode.Day, quiet := false, no_color := false, cache_override := false
    emoji := EmojiMode.Technical, temp_scale := TempScale.Fahrenheit, latlon := none }

/-- One short-flag character of the `-xyz` argument loop in the
`SETTINGS` static; `none` models `process::exit` (`-v`, `-h`,
unrecognized). -/
def apply_short_flag (s : Settings) (c : Char) : Option Settings :=
  match c with
  | 'v' => none
  | 'h' => none
  | 'q' => some { s with quiet := true }
  | 'w' => some { s with mode := Mode.Week }
  | 'd' => some { s with mode := Mode.Day }
  | 's' => some { s with mode := Mode.Current, no_color := true, emoji := EmojiMode.NerdFont }
  | 'r' => some { s with cache_override := true }
  | 'f' => some { s with temp_scale := TempScale.Fahrenheit }
  | 'c' => some { s with temp_scale := TempScale.Celsius }
  | 'n' => some { s with emoji := EmojiMode.NerdFont }
  | 'o' => some { s with emoji := EmojiMode.Original }
  | 't' => some { s with emoji := EmojiMode.Technical }
  | _ => none

/-- Rust `str::contains(char)` (over the character list, which is what
Rust's `char` pattern matching inspects). -/
def strContainsChar (s : String) (c : Char) : Bool := s.toList.contains c

/-- Rust `str::starts_with(prefix)` (over the character list). -/
def strStartsWith (s pre : String) : Bool := pre.toList.isPrefixOf s.toList

/-- The argument loop of the `SETTINGS` lazy static in `src/main.rs`,
arm for arm in source order.  `none` models every `process::exit` path
(help, version, unrecognized option, failed `LAT:LON` parse);
`parseLL` abstracts `split_once(':')` plus the two `parse::<f32>`
calls of the positional-coordinate arm, library code outside this
repository. -/
def parse_args_go (parseLL : String → Option (F32 × F32)) :
    Settings → List String → Option Settings
  | s, [] => some s
  | s, arg :: rest =>
    if arg = "--" then some s
    else if arg = "--version" then none
    else if arg = "--help" then none
    else if arg = "--quiet" then parse_args_go parseLL { s with quiet := true } rest
    else if arg = "--week" then parse_args_go parseLL { s with mode := Mode.Day } rest
    else if arg = "--day" then parse_args_go parseLL { s with mode := Mode.Day } rest
    else if arg = "--short" then
      parse_args_go parseLL
        { s with mode := Mode.Current, no_color := true, emoji := EmojiMode.NerdFont } rest
    else if arg = "--refresh" then
      parse_args_go parseLL { s with cache_override := true } rest
    else if arg = "--fahrenheit" then
      parse_args_go parseLL { s with temp_scale := TempScale.Fahrenheit } rest
    else if arg = "--celsius" then
      parse_args_go parseLL { s with temp_scale := TempScale.Celsius } rest
    else if arg = "--no-color" then
      parse_args_go parseLL { s with no_color := true } rest
    else if arg = "--emoji-nf" then
      parse_args_go parseLL { s with emoji := EmojiMode.NerdFont } rest
    else if arg = "--emoji-original" then
      parse_args_go parseLL { s with emoji := EmojiMode.Original } rest
    else if arg = "--emoji-tech" then
      parse_args_go parseLL { s with emoji := EmojiMode.Technical } rest
    else if strStartsWith arg "--" then none
    else if strContainsChar arg ':' then
      match parseLL arg with
      | some ll =>
        match LatLon.new ll.1 ll.2 with
        | Except.ok p => parse_args_go parseLL { s with latlon := some p } rest
        | Except.error _ => none
      | none => none
    else if strStartsWith arg "-" then
      match (arg.toList.drop 1).foldlM apply_short_flag s with
      | some s2 => parse_args_go parseLL s2 rest
      | none => none
    else none

/-- Full run of the argument loop from the default settings. -/
def parse_args (parseLL : String → Option (F32 × F32)) (args : List String) :
    Option Settings :=
  parse_args_go parseLL defaultSettings args

/-- Which renderer a run invokes. -/
inductive DisplayKind where
  | OneLine
  | HourlyTable
  | WeeklyTable
  deriving DecidableEq

/-- The display-mode dispatch at the end of `main` in `src/main.rs`:
`Current → one_line_weather`, `Day → hourly_weather`,
`Week → weekly_weather`. -/
def main_display : Mode → DisplayKind
  | Mode.Current => DisplayKind.OneLine
  | Mode.Day => DisplayKind.HourlyTable
  | Mode.Week => DisplayKind.WeeklyTable

/-! ## Helper lemmas -/

theorem get?_lt {α : Type} (l : List α) (n : Nat) (h : n < l.length) :
    ∃ a, l.get? n = some a := by
  induction l generalizing n with
  | nil => simp at h
  | cons x xs ih =>
    cases n with
    | zero => exact ⟨x, rfl⟩
    | succ m => exact ih m (by simpa using h)

theorem mapOpt_some {α β : Type} (f : α → Option β) (l : List α)
    (h : ∀ a ∈ l, ∃ b, f a = some b) :
    ∃ ys, mapOpt f l = some ys ∧ ys.length = l.length := by
  induction l with
  | nil => exact ⟨[], rfl, rfl⟩
  | cons a l ih =>
    obtain ⟨b, hb⟩ := h a (List.mem_cons_self a l)
    obtain ⟨ys, hys, hlen⟩ := ih (fun x hx => h x (List.mem_cons_of_mem a hx))
    exact ⟨b :: ys, by simp [mapOpt, hb, hys], by simp [hlen]⟩

theorem listMin_of_ne_nil (l : List ℚ) (h : l ≠ []) : ∃ q, listMin l = some q := by
  cases l with
  | nil => exact absurd rfl h
  | cons x xs => exact ⟨xs.foldl min x, rfl⟩

theorem listMax_of_ne_nil (l : List ℚ) (h : l ≠ []) : ∃ q, listMax l = some q := by
  cases l with
  | nil => exact absurd rfl h
  | cons x xs => exact ⟨xs.foldl max x, rfl⟩

theorem rustSlice_some {α : Type} (l : List α) (s e : Nat) (hse : s ≤ e)
    (hel : e ≤ l.length) :
    rustSlice l s e = some ((l.drop s).take (e - s)) ∧
      ((l.drop s).take (e - s)).length = e - s := by
  refine ⟨by simp [rustSlice, hse, hel], ?_⟩
  simp only [List.length_take, List.length_drop]
  omega

theorem eighthGlyph_length (y : ℚ) : (eighthGlyph y).length = 1 := by
  unfold eighthGlyph
  split_ifs <;> rfl

theorem padTo_length (s : String) (w : Nat) : (padTo s w).length = max w s.length := by
  unfold padTo
  split_ifs with h
  · have hp : (String.mk (List.replicate (w - s.length) ' ')).length = w - s.length := by
      show (List.replicate (w - s.length) ' ').length = w - s.length
      exact List.length_replicate _ _
    rw [String.length_append, hp]
    omega
  · omega

/-- The exact glyph count of `mk_bar`: the `format!("{:1$}", …)` pad
raises short bars to `bar_max` characters but never truncates long
ones. -/
theorem mk_bar_length_eq (val low high bar_low : ℚ) (bar_max : Nat) :
    (mk_bar val low high bar_low bar_max).length =
      max bar_max
        (rustCastUsize (lerp val low high bar_low ((bar_max : ℚ) - 1)) + 1) := by
  unfold mk_bar
  rw [padTo_length, String.length_append, eighthGlyph_length]
  have hb : (String.mk (List.replicate
      (rustCastUsize (lerp val low high bar_low ((bar_max : ℚ) - 1))) '█')).length =
      rustCastUsize (lerp val low high bar_low ((bar_max : ℚ) - 1)) := by
    show (List.replicate _ '█').length = _
    exact List.length_replicate _ _
  rw [hb]

/-! ## C2: bar width -/

/-- C2 counterexample: for `mk_bar(200, 0, 100, 0, 10)` the lerped
value is `18`, so the bar is 18 full blocks plus one partial glyph —
19 visible characters, more than the requested width 10: the claim
that the output is always exactly `width` characters is false. -/
theorem mk_bar_width_cex :
    (mk_bar 200 0 100 0 10).length = 19 ∧ (mk_bar 200 0 100 0 10).length ≠ 10 := by
  have hl : lerp 200 0 100 0 (((10 : Nat) : ℚ) - 1) = 18 := by norm_num [lerp]
  have h18 : rustCastUsize (18 : ℚ) = 18 := by decide
  have h := mk_bar_length_eq 200 0 100 0 10
  rw [hl, h18] at h
  omega

/-- C2 (amended): the bar string consists of exactly
`max(width, k + 1)` visible characters, where `k` is the lerped value
truncated to a non-negative integer — exactly `width` whenever
`k + 1 ≤ width` (in particular for in-range values), but longer than
`width` for values lerping past `width - 1`, because the renderer pads
short output and never truncates long output. -/
theorem mk_bar_glyph_count (val low high bar_low : ℚ) (bar_max : Nat) :
    (mk_bar val low high bar_low bar_max).length =
      max bar_max
        (rustCastUsize (lerp val low high bar_low ((bar_max : ℚ) - 1)) + 1) :=
  mk_bar_length_eq val low high bar_low bar_max

theorem phase_of_lunar_named (x : Nat) (hx : x < 2551442) (n : Nat) :
    phase_of_lunar x ≠ MoonPhase.Invalid n := by
  have hInc : moonInc = 318930 := by decide
  have hRem : moonRem = 2 := by decide
  unfold phase_of_lunar
  rw [hInc, hRem]
  split_ifs
  all_goals try exact fun h => MoonPhase.noConfusion h
  all_goals exact absurd hx (by omega)

theorem phase_of_lunar_buckets (x : Nat) (hx : x < 2551442) :
    (phase_of_lunar x = MoonPhase.LastQ ↔ x ≤ 318930) ∧
    (phase_of_lunar x = MoonPhase.WanCres ↔ 318930 < x ∧ x ≤ 637860) ∧
    (phase_of_lunar x = MoonPhase.New ↔ 637860 < x ∧ x ≤ 956790) ∧
    (phase_of_lunar x = MoonPhase.WaxCres ↔ 956790 < x ∧ x ≤ 1275720) ∧
    (phase_of_lunar x = MoonPhase.FirstQ ↔ 1275720 < x ∧ x ≤ 1594650) ∧
    (phase_of_lunar x = MoonPhase.WaxGib ↔ 1594650 < x ∧ x ≤ 1913580) ∧
    (phase_of_lunar x = MoonPhase.Full ↔ 1913580 < x ∧ x ≤ 2232510) ∧
    (phase_of_lunar x = MoonPhase.WanGib ↔ 2232510 < x ∧ x < 2551442) := by
  have hInc : moonInc = 318930 := by decide
  have hRem : moonRem = 2 := by decide
  unfold phase_of_lunar
  rw [hInc, hRem]
  split_ifs <;>
    refine ⟨?_, ?_, ?_, ?_, ?_, ?_, ?_, ?_⟩ <;>
    first
      | exact iff_of_true rfl (by omega)
      | exact iff_of_false (fun h => nomatch h) (by omega)

/-- A concrete forecast document: 15-minutely series of length 1
(one sample at unix time 1000000), three daily samples, Fahrenheit
unit strings.  Used as the concrete evaluation point of witnesses and
counterexamples. -/
def sampleDoc : MeteoApiResponse :=
  { latitude := 407 / 10, longitude := -74
    utc_offset_seconds := -14400
    timezone := "America/New_York"
    current :=
      { time := 1000000, interval := 900, temperature_2m := 70
        relative_humidity_2m := 50, weather_code := 0 }
    hourly_units :=
      { time := "unixtime", relative_humidity_2m := "%"
        precipitation_probability := "%", dew_point_2m := "°F"
        wind_speed_10m := "mp/h", wind_direction_10m := "°"
        temperature_2m := "°F", weather_code := "wmo code" }
    minutely_15 :=
      { time := [1000000], temperature_2m := [70]
        relative_humidity_2m := [50], dew_point_2m := [60]
        precipitation_probability := [10], weather_code := [0]
        wind_speed_10m := [5], wind_direction_10m := [180] }
    daily :=
      { time := [950000, 1036400, 1122800]
        temperature_2m_max := [75, 75, 75]
        temperature_2m_min := [60, 60, 60]
        sunrise := [960000, 1046400, 1132800]
        sunset := [1010000, 1096400, 1182800]
        precipitation_probability_max := [10, 10, 10]
        wind_speed_10m_max := [10, 10, 10]
        weather_code := [0, 0, 0]
        uv_index_max := [5, 5, 5] } }

/-! ## C1: cache validity -/

/-- C1: the cache-validity predicate.  `force_refresh`
(`cache_override`) forces `false` for every cache content; otherwise a
parsed document is valid iff its age is strictly below 1800 seconds,
its stored hourly temperature-unit string matches the configured
scale, and any explicitly requested coordinates are within 0.1 degree
on each axis.  `hfin` restricts the iff to real (non-NaN) requested
coordinates, which is what the claim quantifies over. -/
theorem is_cache_valid_spec (s : Settings) (sys : Nat) (doc : MeteoApiResponse)
    (hfin : ∀ ll, s.latlon = some ll →
      (∃ a, ll.lat = F32.num a) ∧ ∃ b, ll.lon = F32.num b) :
    (s.cache_override = true → ∀ c, is_cache_valid s sys c = false) ∧
    (s.cache_override = false →
      (is_cache_valid s sys (some doc) = true ↔
        ((sys : Int) - (doc.current.time : Int)).natAbs < 1800 ∧
        ((s.temp_scale = TempScale.Fahrenheit ∧
            doc.hourly_units.temperature_2m = "°F") ∨
         (s.temp_scale = TempScale.Celsius ∧
            doc.hourly_units.temperature_2m = "°C")) ∧
        (∀ la lo, s.latlon = some { lat := F32.num la, lon := F32.num lo } →
          |la - doc.latitude| ≤ 1 / 10 ∧ |lo - doc.longitude| ≤ 1 / 10))) := by
  constructor
  · intro hc c
    simp [is_cache_valid, hc]
  · intro hc
    simp only [is_cache_valid, hc, Bool.false_eq_true, if_false]
    by_cases hage : 1800 ≤ ((sys : Int) - (doc.current.time : Int)).natAbs
    · rw [if_pos hage]
      simp only [Bool.false_eq_true, false_iff]
      rintro ⟨h1, -, -⟩
      omega
    · rw [if_neg hage]
      cases hts : s.temp_scale with
      | Fahrenheit =>
        by_cases hu : doc.hourly_units.temperature_2m = "°F"
        · simp only [hu, beq_self_eq_true, Bool.not_true, Bool.false_eq_true, if_false]
          cases hll : s.latlon with
          | none =>
            simp only [true_iff]
            refine ⟨by omega, Or.inl ⟨trivial, trivial⟩, ?_⟩
            intro la lo h
            exact absurd h (by simp)
          | some ll =>
            obtain ⟨⟨la, hla⟩, lo, hlo⟩ := hfin ll hll
            rcases ll with ⟨llat, llon⟩
            simp only at hla hlo
            subst hla
            subst hlo
            simp only [F32.fsubQ, F32.fabs, F32.fgtQ, decide_eq_true_eq]
            by_cases h1 : (1 : ℚ) / 10 < |la - doc.latitude|
            · rw [if_pos h1]
              simp only [Bool.false_eq_true, false_iff]
              rintro ⟨-, -, h3⟩
              have h4 := h3 la lo rfl
              linarith [h4.1]
            · rw [if_neg h1]
              by_cases h2 : (1 : ℚ) / 10 < |lo - doc.longitude|
              · rw [if_pos h2]
                simp only [Bool.false_eq_true, false_iff]
                rintro ⟨-, -, h3⟩
                have h4 := h3 la lo rfl
                linarith [h4.2]
              · rw [if_neg h2]
                refine ⟨fun _ => ⟨by omega, Or.inl ⟨trivial, trivial⟩, ?_⟩, fun _ => rfl⟩
                intro la2 lo2 h3
                simp only [Option.some.injEq, LatLon.mk.injEq, F32.num.injEq] at h3
                obtain ⟨h5, h6⟩ := h3
                subst h5
                subst h6
                exact ⟨le_of_not_lt h1, le_of_not_lt h2⟩
        · have hbeq : (doc.hourly_units.temperature_2m == "°F") = false := by
            simp [hu]
          simp only [hbeq, Bool.not_false, if_true, Bool.false_eq_true, false_iff]
          rintro ⟨-, hOr, -⟩
          rcases hOr with ⟨-, hF⟩ | ⟨hCeq, -⟩
          · exact hu hF
          · exact absurd hCeq (by simp)
      | Celsius =>
        by_cases hu : doc.hourly_units.temperature_2m = "°C"
        · simp only [hu, beq_self_eq_true, Bool.not_true, Bool.false_eq_true, if_false]
          cases hll : s.latlon with
          | none =>
            simp only [true_iff]
            refine ⟨by omega, Or.inr ⟨trivial, trivial⟩, ?_⟩
            intro la lo h
            exact absurd h (by simp)
          | some ll =>
            obtain ⟨⟨la, hla⟩, lo, hlo⟩ := hfin ll hll
            rcases ll with ⟨llat, llon⟩
            simp only at hla hlo
            subst hla
            subst hlo
            simp only [F32.fsubQ, F32.fabs, F32.fgtQ, decide_eq_true_eq]
            by_cases h1 : (1 : ℚ) / 10 < |la - doc.latitude|
            · rw [if_pos h1]
              simp only [Bool.false_eq_true, false_iff]
              rintro ⟨-, -, h3⟩
              have h4 := h3 la lo rfl
              linarith [h4.1]
            · rw [if_neg h1]
              by_cases h2 : (1 : ℚ) / 10 < |lo - doc.longitude|
              · rw [if_pos h2]
                simp only [Bool.false_eq_true, false_iff]
                rintro ⟨-, -, h3⟩
                have h4 := h3 la lo rfl
                linarith [h4.2]
              · rw [if_neg h2]
                refine ⟨fun _ => ⟨by omega, Or.inr ⟨trivial, trivial⟩, ?_⟩, fun _ => rfl⟩
                intro la2 lo2 h3
                simp only [Option.some.injEq, LatLon.mk.injEq, F32.num.injEq] at h3
                obtain ⟨h5, h6⟩ := h3
                subst h5
                subst h6
                exact ⟨le_of_not_lt h1, le_of_not_lt h2⟩
        · have hbeq : (doc.hourly_units.temperature_2m == "°C") = false := by
            simp [hu]
          simp only [hbeq, Bool.not_false, if_true, Bool.false_eq_true, false_iff]
          rintro ⟨-, hOr, -⟩
          rcases hOr with ⟨hFeq, -⟩ | ⟨-, hC⟩
          · exact absurd hFeq (by simp)
          · exact hu hC

/-- C1 witness: with Fahrenheit settings and a document stamped at
unix time 1000000, the cache is valid at clock 1001799 (age exactly
1799), invalid at clock 1001800 (age exactly 1800), and invalid
whenever the force-refresh flag is set. -/
theorem is_cache_valid_spec_witness :
    is_cache_valid defaultSettings 1001799 (some sampleDoc) = true ∧
    is_cache_valid defaultSettings 1001800 (some sampleDoc) = false ∧
    is_cache_valid { defaultSettings with cache_override := true } 1001799
      (some sampleDoc) = false := by
  refine ⟨?_, ?_, ?_⟩
  · exact ((is_cache_valid_spec defaultSettings 1001799 sampleDoc
        (fun ll h => Option.noConfusion h)).2 rfl).mpr
      ⟨by decide, Or.inl ⟨rfl, rfl⟩, fun la lo h => Option.noConfusion h⟩
  · have h := (is_cache_valid_spec defaultSettings 1001800 sampleDoc
      (fun ll hh => Option.noConfusion hh)).2 rfl
    refine Bool.eq_false_iff.mpr (fun htrue => ?_)
    have h2 := (h.mp htrue).1
    simp only [sampleDoc] at h2
    omega
  · exact (is_cache_valid_spec { defaultSettings with cache_override := true }
      1001799 sampleDoc (fun ll h => Option.noConfusion h)).1 rfl (some sampleDoc)

theorem get_time_index_go_of_none (sys : Nat) (ts : List Nat) (r i : Nat)
    (h : ∀ t ∈ ts, ¬(0 ≤ (sys : Int) - (t : Int) ∧ (sys : Int) - (t : Int) ≤ 900)) :
    get_time_index_go sys r i ts = r := by
  induction ts generalizing r i with
  | nil => rfl
  | cons t ts ih =>
    rw [get_time_index_go, if_neg (h t (List.mem_cons_self t ts))]
    exact ih _ _ (fun u hu => h u (List.mem_cons_of_mem t hu))

theorem get_time_index_go_spec (sys : Nat) (ts : List Nat) (r i0 : Nat) :
    ∀ k t, ts.get? k = some t →
      (0 ≤ (sys : Int) - (t : Int) ∧ (sys : Int) - (t : Int) ≤ 900) →
      (i0 + k ≤ get_time_index_go sys r i0 ts ∧
        ∃ k2 t2, ts.get? k2 = some t2 ∧
          (0 ≤ (sys : Int) - (t2 : Int) ∧ (sys : Int) - (t2 : Int) ≤ 900) ∧
          get_time_index_go sys r i0 ts = i0 + k2) := by
  induction ts generalizing r i0 with
  | nil => intro k t hk; simp at hk
  | cons t ts ih =>
    intro k u hk hq
    by_cases htail : ∃ k2 t2, ts.get? k2 = some t2 ∧
        (0 ≤ (sys : Int) - (t2 : Int) ∧ (sys : Int) - (t2 : Int) ≤ 900)
    · obtain ⟨k2, t2, hk2, hq2⟩ := htail
      have H := ih (if 0 ≤ (sys : Int) - (t : Int) ∧ (sys : Int) - (t : Int) ≤ 900
        then i0 else r) (i0 + 1) k2 t2 hk2 hq2
      rw [get_time_index_go]
      constructor
      · cases k with
        | zero => omega
        | succ m =>
          have := (ih (if 0 ≤ (sys : Int) - (t : Int) ∧ (sys : Int) - (t : Int) ≤ 900
            then i0 else r) (i0 + 1) m u (by simpa using hk) hq).1
          omega
      · obtain ⟨k3, t3, hk3, hq3, hres⟩ := H.2
        exact ⟨k3 + 1, t3, by simpa using hk3, hq3, by rw [hres]; omega⟩
    · cases k with
      | succ m => exact absurd ⟨m, u, by simpa using hk, hq⟩ htail
      | zero =>
        have hut : t = u := by simpa using hk
        have hqt : 0 ≤ (sys : Int) - (t : Int) ∧ (sys : Int) - (t : Int) ≤ 900 := by
          rw [hut]
          exact hq
        have hnone : get_time_index_go sys (if 0 ≤ (sys : Int) - (t : Int) ∧
            (sys : Int) - (t : Int) ≤ 900 then i0 else r) (i0 + 1) ts =
            (if 0 ≤ (sys : Int) - (t : Int) ∧ (sys : Int) - (t : Int) ≤ 900
              then i0 else r) := by
          refine get_time_index_go_of_none sys ts _ _ (fun v hv hc => ?_)
          obtain ⟨n, hn⟩ := List.mem_iff_get?.mp hv
          exact htail ⟨n, v, hn, hc⟩
        rw [get_time_index_go, hnone, if_pos hqt]
        exact ⟨by omega, 0, t, rfl, hqt, by omega⟩

/-! ## C3: the now-index finder -/

/-- C3: `get_time_index` returns the last (largest) index whose
timestamp is between 0 and 900 seconds at-or-before the clock: when no
index qualifies it returns the default `START_DISPLAY = 24` (6 hours
of 15-minute samples), and when some index qualifies, every qualifying
index is bounded by the result and the result is itself a qualifying
index — hence the largest one. -/
theorem get_time_index_spec (sys : Nat) (td : List Nat) :
    ((∀ k t, td.get? k = some t →
        ¬(0 ≤ (sys : Int) - (t : Int) ∧ (sys : Int) - (t : Int) ≤ 900)) →
      get_time_index sys td = 24) ∧
    (∀ k t, td.get? k = some t →
      (0 ≤ (sys : Int) - (t : Int) ∧ (sys : Int) - (t : Int) ≤ 900) →
      (k ≤ get_time_index sys td ∧
        ∃ k2 t2, td.get? k2 = some t2 ∧
          (0 ≤ (sys : Int) - (t2 : Int) ∧ (sys : Int) - (t2 : Int) ≤ 900) ∧
          get_time_index sys td = k2)) := by
  constructor
  · intro h
    refine get_time_index_go_of_none sys td START_DISPLAY 0 (fun t ht hc => ?_)
    obtain ⟨n, hn⟩ := List.mem_iff_get?.mp ht
    exact h n t hn hc
  · intro k t hk hq
    have H := get_time_index_go_spec sys td START_DISPLAY 0 k t hk hq
    refine ⟨by simpa using H.1, ?_⟩
    obtain ⟨k2, t2, hk2, hq2, hres⟩ := H.2
    exact ⟨k2, t2, hk2, hq2, by simpa using hres⟩

/-- C3 witness: with clock 500 and series `[100, 200, 5000]`, indexes
0 and 1 qualify and the finder returns the larger one; on a series
with no qualifying sample it returns 24. -/
theorem get_time_index_spec_witness :
    1 ≤ get_time_index 500 [100, 200, 5000] ∧
    get_time_index 500 [100, 200, 5000] = 1 ∧
    get_time_index 500 [5000] = 24 := by
  refine ⟨?_, rfl, ?_⟩
  · exact ((get_time_index_spec 500 [100, 200, 5000]).2 1 200 rfl (by decide)).1
  · refine (get_time_index_spec 500 [5000]).1 (fun k t hk => ?_)
    cases k with
    | zero =>
      simp only [List.get?] at hk
      cases hk
      decide
    | succ m => simp at hk

theorem select_window_bounds (len now : Nat) (h : now < len ∨ now = START_DISPLAY) :
    (select_window len now).1 ≤ (select_window len now).2 ∧
      (select_window len now).2 ≤ len := by
  simp only [select_window, START_DISPLAY, END_DISPLAY] at *
  omega

theorem select_window_pos (len now : Nat) (h : now < len ∨ now = START_DISPLAY)
    (hpos : 0 < len) : (select_window len now).1 < (select_window len now).2 := by
  simp only [select_window, START_DISPLAY, END_DISPLAY] at *
  omega

theorem select_window_width (len now : Nat) :
    (select_window len now).2 - (select_window len now).1 ≤ 120 := by
  simp only [select_window, START_DISPLAY, END_DISPLAY]
  omega

theorem get_time_index_go_cases (sys : Nat) (ts : List Nat) (r i : Nat) :
    get_time_index_go sys r i ts = r ∨
      ∃ k, k < ts.length ∧ get_time_index_go sys r i ts = i + k := by
  induction ts generalizing r i with
  | nil => exact Or.inl rfl
  | cons t ts ih =>
    rw [get_time_index_go]
    rcases ih (if 0 ≤ (sys : Int) - (t : Int) ∧ (sys : Int) - (t : Int) ≤ 900
      then i else r) (i + 1) with h | ⟨k, hk, hres⟩
    · by_cases hc : 0 ≤ (sys : Int) - (t : Int) ∧ (sys : Int) - (t : Int) ≤ 900
      · rw [if_pos hc] at h ⊢
        exact Or.inr ⟨0, by simp, by omega⟩
      · rw [if_neg hc] at h ⊢
        exact Or.inl h
    · exact Or.inr ⟨k + 1, by simp; omega, by omega⟩

theorem get_time_index_cases (sys : Nat) (td : List Nat) :
    get_time_index sys td < td.length ∨ get_time_index sys td = START_DISPLAY := by
  unfold get_time_index
  rcases get_time_index_go_cases sys td START_DISPLAY 0 with h | ⟨k, hk, h⟩
  · exact Or.inr h
  · exact Or.inl (by omega)

/-! ## C5: the display window bounds -/

/-- C5 counterexample: the claim quantifies over every series length
and now-index; for length 10 and now-index 200 the window bounds are
`start = max(0, 200-24) = 176` and `end = min(10, 200+96) = 10`, so
`start > end` and Rust's slice indexing `&l[176..10]` panics — the
bounds are not always in range. -/
theorem select_window_oob_cex :
    (select_window 10 200).1 = 176 ∧ (select_window 10 200).2 = 10 ∧
    rustSlice (List.replicate 10 (0 : ℚ)) (select_window 10 200).1
      (select_window 10 200).2 = none := by
  refine ⟨rfl, rfl, ?_⟩
  rfl

/-- C5 (amended): for the now-index values the program actually
produces — an index of the series (`now < len`) or the default
`START_DISPLAY` — the window `[max(0, now－24), min(len, now+96))` is
always in range: the lower bound clamps to 0, the upper bound clamps
to `len`, `start ≤ end`, and the slice succeeds with length
`end − start`.  For an arbitrary now-index above `len + 24` the lower
bound exceeds the upper bound and the slice indexing fails, as the
counterexample shows. -/
theorem select_window_spec {α : Type} (l : List α) (now : Nat)
    (h : now < l.length ∨ now = START_DISPLAY) :
    (select_window l.length now).1 ≤ (select_window l.length now).2 ∧
    (select_window l.length now).2 ≤ l.length ∧
    rustSlice l (select_window l.length now).1 (select_window l.length now).2 =
      some ((l.drop (select_window l.length now).1).take
        ((select_window l.length now).2 - (select_window l.length now).1)) := by
  have hb := select_window_bounds l.length now h
  exact ⟨hb.1, hb.2, (rustSlice_some l _ _ hb.1 hb.2).1⟩

/-- C5 witness: a length-10 series with now-index 5 slices
successfully (bounds clamp to `[0, 10)`). -/
theorem select_window_spec_witness :
    rustSlice (List.replicate 10 (0 : ℚ))
      (select_window (List.replicate 10 (0 : ℚ)).length 5).1
      (select_window (List.replicate 10 (0 : ℚ)).length 5).2 =
      some (((List.replicate 10 (0 : ℚ)).drop
        (select_window (List.replicate 10 (0 : ℚ)).length 5).1).take
        ((select_window (List.replicate 10 (0 : ℚ)).length 5).2 -
          (select_window (List.replicate 10 (0 : ℚ)).length 5).1)) :=
  (select_window_spec (List.replicate 10 (0 : ℚ)) 5 (Or.inl (by simp))).2.2

/-! ## C6: the moon-phase partition -/

/-- C6: `get_moon_phase` never returns the `Invalid` variant for any
unix-time input, and on `[0, 2551442)` the bucket match partitions the
remainder range into 8 contiguous, non-overlapping intervals whose
widths differ from `inc = 318930` by at most one (the first and last
hold `inc + 1` values; Rust's first-match semantics resolves the
shared inclusive endpoints). -/
theorem moon_phase_partition :
    (∀ t n, get_moon_phase t ≠ MoonPhase.Invalid n) ∧
    (∀ x, x < moonPeriod →
      ((phase_of_lunar x = MoonPhase.LastQ ↔ x ≤ 318930) ∧
       (phase_of_lunar x = MoonPhase.WanCres ↔ 318930 < x ∧ x ≤ 637860) ∧
       (phase_of_lunar x = MoonPhase.New ↔ 637860 < x ∧ x ≤ 956790) ∧
       (phase_of_lunar x = MoonPhase.WaxCres ↔ 956790 < x ∧ x ≤ 1275720) ∧
       (phase_of_lunar x = MoonPhase.FirstQ ↔ 1275720 < x ∧ x ≤ 1594650) ∧
       (phase_of_lunar x = MoonPhase.WaxGib ↔ 1594650 < x ∧ x ≤ 1913580) ∧
       (phase_of_lunar x = MoonPhase.Full ↔ 1913580 < x ∧ x ≤ 2232510) ∧
       (phase_of_lunar x = MoonPhase.WanGib ↔ 2232510 < x ∧ x < 2551442))) := by
  have hP : moonPeriod = 2551442 := by decide
  constructor
  · intro t n
    simp only [get_moon_phase]
    apply phase_of_lunar_named
    have := Nat.mod_lt ((t % 4294967296 + (86400 - 3600)) % 4294967296)
      (show 0 < moonPeriod by decide)
    rwa [hP] at this
  · intro x hx
    rw [hP] at hx
    exact phase_of_lunar_buckets x hx

/-- C6 witness: time 0 maps to a named phase (`LastQ`, since the
shifted remainder 82800 lands in the first bucket), not `Invalid`. -/
theorem moon_phase_partition_witness :
    get_moon_phase 0 ≠ MoonPhase.Invalid 0 ∧
    (phase_of_lunar 82800 = MoonPhase.LastQ ↔ (82800 : Nat) ≤ 318930) :=
  ⟨moon_phase_partition.1 0 0, (moon_phase_partition.2 82800 (by decide)).1⟩

/-! ## C7: coordinate validation on real (non-NaN) inputs -/

/-- C7: for every lat ∈ [-90, 90] and lon ∈ [-180, 180] the
constructor `LatLon.new` returns `Ok` carrying the inputs unchanged
(no clamping); for lat outside [-90, 90] it returns
`InvalidLatitude lat`; for lat in range but lon outside [-180, 180]
it returns `InvalidLongitude lon` — the error variant identifies the
offending axis. -/
theorem latlon_new_validates (lat lon : ℚ) :
    ((-90 ≤ lat ∧ lat ≤ 90 ∧ -180 ≤ lon ∧ lon ≤ 180) →
      LatLon.new (F32.num lat) (F32.num lon) =
        Except.ok { lat := F32.num lat, lon := F32.num lon }) ∧
    ((lat < -90 ∨ 90 < lat) →
      LatLon.new (F32.num lat) (F32.num lon) =
        Except.error (MyError.InvalidLatitude (F32.num lat))) ∧
    ((-90 ≤ lat ∧ lat ≤ 90 ∧ (lon < -180 ∨ 180 < lon)) →
      LatLon.new (F32.num lat) (F32.num lon) =
        Except.error (MyError.InvalidLongitude (F32.num lon))) := by
  refine ⟨fun h => ?_, fun h => ?_, fun h => ?_⟩ <;>
    simp only [LatLon.new, F32.flt, F32.fgt, Bool.or_eq_true, decide_eq_true_eq]
  · rw [if_neg (by push_neg; constructor <;> linarith [h.1, h.2.1]),
      if_neg (by push_neg; constructor <;> linarith [h.2.2.1, h.2.2.2])]
  · rw [if_pos h]
  · rw [if_neg (by push_neg; constructor <;> linarith [h.1, h.2.1]),
      if_pos h.2.2]

/-- C7 witness: `LatLon::new(40.7, -74.0)` succeeds, and
`LatLon::new(91, 0)` fails with `InvalidLatitude`. -/
theorem latlon_new_validates_witness :
    LatLon.new (F32.num (407 / 10)) (F32.num (-74)) =
      Except.ok { lat := F32.num (407 / 10), lon := F32.num (-74) } ∧
    LatLon.new (F32.num 91) (F32.num 0) =
      Except.error (MyError.InvalidLatitude (F32.num 91)) :=
  ⟨(latlon_new_validates (407 / 10) (-74)).1 (by norm_num),
   (latlon_new_validates 91 0).2.1 (by norm_num)⟩

/-! ## C9: NaN coordinates pass validation -/

/-- C9: a NaN latitude (with any in-range longitude), a NaN longitude
(with any in-range latitude), and even both NaN are accepted by
`LatLon.new`: every IEEE comparison against NaN is false, so neither
range guard fires and the constructor returns `Ok`. -/
theorem latlon_new_accepts_nan (lat lon : ℚ) :
    ((-180 ≤ lon ∧ lon ≤ 180) →
      LatLon.new F32.nan (F32.num lon) =
        Except.ok { lat := F32.nan, lon := F32.num lon }) ∧
    ((-90 ≤ lat ∧ lat ≤ 90) →
      LatLon.new (F32.num lat) F32.nan =
        Except.ok { lat := F32.num lat, lon := F32.nan }) ∧
    LatLon.new F32.nan F32.nan = Except.ok { lat := F32.nan, lon := F32.nan } := by
  refine ⟨fun h => ?_, fun h => ?_, rfl⟩
  · simp only [LatLon.new, F32.flt, F32.fgt, Bool.or_eq_true, decide_eq_true_eq]
    rw [if_neg (by simp), if_neg (by push_neg; constructor <;> linarith [h.1, h.2])]
  · simp only [LatLon.new, F32.flt, F32.fgt, Bool.or_eq_true, decide_eq_true_eq]
    rw [if_neg (by push_neg; constructor <;> linarith [h.1, h.2]), if_neg (by simp)]

/-- C9 witness: `LatLon::new(NaN, 0)` and `LatLon::new(0, NaN)` are
both accepted. -/
theorem latlon_new_accepts_nan_witness :
    LatLon.new F32.nan (F32.num 0) = Except.ok { lat := F32.nan, lon := F32.num 0 } ∧
    LatLon.new (F32.num 0) F32.nan = Except.ok { lat := F32.num 0, lon := F32.nan } :=
  ⟨(latlon_new_accepts_nan 0 0).1 (by norm_num),
   (latlon_new_accepts_nan 0 0).2.1 (by norm_num)⟩

/-! ## C8: weather code 95 across all emoji tables -/

/-- C8: for weather code 95 every emoji mode and day/night flag yields
a thunderstorm label (`" Thunderstorm~"` in the NerdFont table,
`"⛈️ Thunderstorms  "` in the Original and Technical tables) with the
yellow thunderstorm color. -/
theorem wmo95_thunderstorm (em : EmojiMode) (dn : Bool) :
    (wmo_table em dn 95).2 = YELLOW ∧
    ((wmo_table em dn 95).1 = " Thunderstorm~" ∨
      (wmo_table em dn 95).1 = "⛈️ Thunderstorms  ") := by
  cases em <;> cases dn <;>
    first
    | exact ⟨rfl, Or.inl rfl⟩
    | exact ⟨rfl, Or.inr rfl⟩

/-! ## C10: the long flag --week selects Day mode -/

/-- C10: processing `"--week"` sets the Day display mode — identically
to `"--day"` — while only the short flag `-w` sets the Week mode; a
run invoked with `"--week"` therefore dispatches to the hourly table,
and one invoked with `-w` to the weekly table. -/
theorem week_flag_selects_day (f : String → Option (F32 × F32)) (s : Settings) :
    parse_args_go f s ["--week"] = some { s with mode := Mode.Day } ∧
    parse_args_go f s ["--week"] = parse_args_go f s ["--day"] ∧
    parse_args_go f s ["-w"] = some { s with mode := Mode.Week } ∧
    (parse_args f ["--week"]).map (fun r => main_display r.mode) =
      some DisplayKind.HourlyTable ∧
    (parse_args f ["-w"]).map (fun r => main_display r.mode) =
      some DisplayKind.WeeklyTable :=
  ⟨rfl, rfl, rfl, rfl, rfl⟩

/-! ## C4: short arrays and the display pipeline -/

theorem stepIndices_mem_lt (n i : Nat) (hi : i ∈ stepIndices n 4) : i < n := by
  simp only [stepIndices, List.mem_map, List.mem_range] at hi
  obtain ⟨j, hj, rfl⟩ := hi
  omega

theorem hourly_rows_total (time : List Nat) (temp humid precip wind_spd : List ℚ)
    (wind_di : List Int) (wmo : List Nat) (lh : ℚ × ℚ) (wb : ℚ → ℚ → ℚ)
    (sunset sunrise : Nat)
    (h1 : time.length = temp.length) (h2 : humid.length = temp.length)
    (h3 : precip.length = temp.length) (h4 : wind_spd.length = temp.length)
    (h5 : wind_di.length = temp.length) (h6 : wmo.length = temp.length) :
    ∃ rows, hourly_rows time temp humid precip wind_spd wind_di wmo lh wb
        sunset sunrise = some rows ∧ rows.length = (temp.length + 3) / 4 := by
  unfold hourly_rows
  have hall : ∀ i ∈ stepIndices temp.length HOURLY_RES, ∃ row,
      (do
        let t ← time.get? i
        let tv ← temp.get? i
        let hv ← humid.get? i
        let pv ← precip.get? i
        let wsv ← wind_spd.get? i
        let wdv ← wind_di.get? i
        let wc ← wmo.get? i
        some
          { time := t, temp := tv
            temp_bar := mk_bar tv lh.1 lh.2 1 BAR_MAX
            humid := hv, wet_bulb := wb tv hv
            precip := pv, precip_bar := mk_bar pv 0 100 0 BAR_MAX
            wind_spd := wsv, wind_di := wdv, wmo := wc
            daynight := decide (t < sunset) && decide (sunrise < t) } :
        Option HourRow) = some row := by
    intro i hi
    have hilt : i < temp.length := stepIndices_mem_lt temp.length i hi
    obtain ⟨t, ht⟩ := get?_lt time i (by omega)
    obtain ⟨tv, htv⟩ := get?_lt temp i hilt
    obtain ⟨hv, hhv⟩ := get?_lt humid i (by omega)
    obtain ⟨pv, hpv⟩ := get?_lt precip i (by omega)
    obtain ⟨wsv, hwv⟩ := get?_lt wind_spd i (by omega)
    obtain ⟨wdv, hdv⟩ := get?_lt wind_di i (by omega)
    obtain ⟨wc, hcv⟩ := get?_lt wmo i (by omega)
    refine ⟨{ time := t, temp := tv
              temp_bar := mk_bar tv lh.1 lh.2 1 BAR_MAX
              humid := hv, wet_bulb := wb tv hv
              precip := pv, precip_bar := mk_bar pv 0 100 0 BAR_MAX
              wind_spd := wsv, wind_di := wdv, wmo := wc
              daynight := decide (t < sunset) && decide (sunrise < t) }, ?_⟩
    simp only [ht, htv, hhv, hpv, hwv, hdv, hcv]
    rfl
  obtain ⟨rows, hr, hlen⟩ := mapOpt_some _ _ hall
  refine ⟨rows, hr, ?_⟩
  rw [hlen]
  simp only [stepIndices, HOURLY_RES, List.length_map, List.length_range]
  omega

/-- C4 counterexample: on a document whose 15-minutely series have
length 1 (shorter than the display window and not a multiple of 96),
`weekly_weather` fails its `assert!(y.len() == CHUNK_LEN)` on the
first time chunk and panics — the claim that neither display crashes
on short arrays is false. -/
theorem weekly_weather_assert_cex :
    weekly_weather (fun _ _ => 0) sampleDoc = none := by
  rfl

/-- C4 (amended): the hourly display never panics on a document whose
15-minutely series share a common positive length and whose daily
sunrise/sunset series reach index 2, and it presents a bounded window
of at most 30 rows; the weekly display, however, asserts that every
96-sample chunk is full and panics whenever the 15-minutely length is
not a multiple of 96, as the counterexample shows. -/
theorem hourly_weather_no_panic (wb : ℚ → ℚ → ℚ) (sys : Nat) (md : MeteoApiResponse)
    (hT : md.minutely_15.temperature_2m.length = md.minutely_15.time.length)
    (hH : md.minutely_15.relative_humidity_2m.length = md.minutely_15.time.length)
    (hP : md.minutely_15.precipitation_probability.length = md.minutely_15.time.length)
    (hW : md.minutely_15.wind_speed_10m.length = md.minutely_15.time.length)
    (hD : md.minutely_15.wind_direction_10m.length = md.minutely_15.time.length)
    (hC : md.minutely_15.weather_code.length = md.minutely_15.time.length)
    (hpos : 0 < md.minutely_15.time.length)
    (hsun : 2 < md.daily.sunset.length)
    (hrise : 2 < md.daily.sunrise.length) :
    ∃ rows, hourly_weather wb sys md = some rows ∧ rows.length ≤ 30 := by
  obtain ⟨ss, hss⟩ := get?_lt _ 2 hsun
  obtain ⟨sr, hsr⟩ := get?_lt _ 2 hrise
  have hcases := get_time_index_cases sys md.minutely_15.time
  have hb := select_window_bounds md.minutely_15.time.length _ hcases
  have hlt := select_window_pos md.minutely_15.time.length _ hcases hpos
  have hwid := select_window_width md.minutely_15.time.length
    (get_time_index sys md.minutely_15.time)
  have sT := rustSlice_some md.minutely_15.time _ _ hb.1 hb.2
  have s1 := rustSlice_some md.minutely_15.temperature_2m _ _ hb.1
    (by rw [hT]; exact hb.2)
  have s2 := rustSlice_some md.minutely_15.relative_humidity_2m _ _ hb.1
    (by rw [hH]; exact hb.2)
  have s3 := rustSlice_some md.minutely_15.precipitation_probability _ _ hb.1
    (by rw [hP]; exact hb.2)
  have s4 := rustSlice_some md.minutely_15.wind_speed_10m _ _ hb.1
    (by rw [hW]; exact hb.2)
  have s5 := rustSlice_some md.minutely_15.wind_direction_10m _ _ hb.1
    (by rw [hD]; exact hb.2)
  have s6 := rustSlice_some md.minutely_15.weather_code _ _ hb.1
    (by rw [hC]; exact hb.2)
  have hne : (md.minutely_15.temperature_2m.drop
      (select_window md.minutely_15.time.length
        (get_time_index sys md.minutely_15.time)).1).take
      ((select_window md.minutely_15.time.length
        (get_time_index sys md.minutely_15.time)).2 -
       (select_window md.minutely_15.time.length
        (get_time_index sys md.minutely_15.time)).1) ≠ [] := by
    intro hnil
    have hl := s1.2
    rw [hnil] at hl
    simp at hl
    omega
  obtain ⟨lo0, hlo0⟩ := listMin_of_ne_nil _ hne
  obtain ⟨hi0, hhi0⟩ := listMax_of_ne_nil _ hne
  obtain ⟨rows, hrows, hrlen⟩ := hourly_rows_total
    ((md.minutely_15.time.drop _).take _)
    ((md.minutely_15.temperature_2m.drop _).take _)
    ((md.minutely_15.relative_humidity_2m.drop _).take _)
    ((md.minutely_15.precipitation_probability.drop _).take _)
    ((md.minutely_15.wind_speed_10m.drop _).take _)
    ((md.minutely_15.wind_direction_10m.drop _).take _)
    ((md.minutely_15.weather_code.drop _).take _)
    (barRange lo0 hi0) wb ss sr
    (by rw [sT.2, s1.2]) (by rw [s2.2, s1.2]) (by rw [s3.2, s1.2])
    (by rw [s4.2, s1.2]) (by rw [s5.2, s1.2]) (by rw [s6.2, s1.2])
  refine ⟨rows, ?_, ?_⟩
  · simp only [hourly_weather, hss, hsr, sT.1, s1.1, s2.1, s3.1, s4.1, s5.1, s6.1,
      hlo0, hhi0, Option.bind_eq_bind, Option.some_bind]
    exact hrows
  · rw [hrlen, s1.2]
    omega

/-- C4 witness: the hourly display succeeds on the concrete length-1
document that crashes the weekly display. -/
theorem hourly_weather_no_panic_witness :
    ∃ rows, hourly_weather (fun _ _ => 0) 0 sampleDoc = some rows ∧
      rows.length ≤ 30 :=
  hourly_weather_no_panic (fun _ _ => 0) 0 sampleDoc rfl rfl rfl rfl rfl rfl
    (by decide) (by decide) (by decide)

end Weather
